import Mathlib

/-!
Verification of the freelan repository fragment: the log FFI bridge
(src/pyfreelan/api/log.py) and the NT build-environment helper
(src/freelan/ntenvironment.py), shallowly embedded in Lean 4.

Modelling conventions:
* Python 2 values appearing in log payloads are the inductive `PyValue`.
  The types unicode and str are distinct constructors; encoding a unicode
  string with UTF-8 is modelled as converting it to a str carrying the
  same text.  In Python bool is a subclass of int, so the isinstance
  predicates below make `pybool` satisfy `isinstance_int`.
* Python floats are opaque tokens (`PyFloat`): the code only passes them
  through, never computes with them.
* Calls into the native library are recorded as a trace of `NativeCall`
  events; the return values of the native functions are supplied by an
  abstract `Sink`.
* A raised Python exception is an `Except.error` carrying the message.
  In `log`, the try/finally has a return statement in the finally block,
  which in Python discards any pending exception; the embedding mirrors
  this by computing the outcome of the attach loop and then discarding
  it, so `log` always returns `Except.ok`.
-/

/-- Opaque model of a Python float: the code never inspects or computes
with float payload values, it only forwards them to the native layer. -/
structure PyFloat where
  tok : Nat
deriving DecidableEq, Repr

/-- Python 2 values that can appear as payload keys or values. The
constructors `pylist` and `pynone` stand for the non-scalar kinds the
code rejects. -/
inductive PyValue where
  | pystr (s : String)
  | pyunicode (s : String)
  | pybool (b : Bool)
  | pyint (n : Int)
  | pyfloat (x : PyFloat)
  | pylist (xs : List Int)
  | pynone
deriving DecidableEq, Repr

namespace PyValue

/-- Python isinstance(v, str) for a Python 2 byte string. -/
def isinstance_str : PyValue → Bool
  | pystr _ => true
  | _ => false

/-- Python isinstance(v, unicode). -/
def isinstance_unicode : PyValue → Bool
  | pyunicode _ => true
  | _ => false

/-- Python isinstance(v, bool). -/
def isinstance_bool : PyValue → Bool
  | pybool _ => true
  | _ => false

/-- Python isinstance(v, int): in Python bool is a subclass of int, so
booleans satisfy this check as well. -/
def isinstance_int : PyValue → Bool
  | pybool _ => true
  | pyint _ => true
  | _ => false

/-- Python isinstance(v, float). -/
def isinstance_float : PyValue → Bool
  | pyfloat _ => true
  | _ => false

/-- Text content of a string value (meaningful when `isinstance_str`). -/
def strVal : PyValue → String
  | pystr s => s
  | pyunicode s => s
  | _ => ""

/-- Boolean content (meaningful when `isinstance_bool`). -/
def boolVal : PyValue → Bool
  | pybool b => b
  | _ => false

/-- Integer content (meaningful when `isinstance_int`). -/
def intVal : PyValue → Int
  | pybool b => if b then 1 else 0
  | pyint n => n
  | _ => 0

/-- Float content (meaningful when `isinstance_float`). -/
def floatVal : PyValue → PyFloat
  | pyfloat x => x
  | _ => ⟨0⟩

/-- The expression v.encode with UTF-8, applied when v is unicode:
yields a str with the same text; any other value is left untouched. -/
def encodeUtf8 : PyValue → PyValue
  | pyunicode s => pystr s
  | v => v

end PyValue

/-- One call into the native logging library, as observed at the FFI
boundary. A file of `none` models passing ffi.NULL. -/
inductive NativeCall where
  | log_single (level ts domain code : Int) (count : Nat) (file : Option String) (line : Int)
  | log_start (level ts domain code : Int) (file : Option String) (line : Int)
  | attach_string (entry : Nat) (key value : String)
  | attach_boolean (entry : Nat) (key : String) (value : Bool)
  | attach_integer (entry : Nat) (key : String) (value : Int)
  | attach_float (entry : Nat) (key : String) (value : PyFloat)
  | log_complete (entry : Nat)
deriving DecidableEq, Repr

/-- Abstract native sink: supplies the return values of the native
functions the Python code calls. The payload-entries pointer of
freelan_log is always ffi.NULL in the code and is omitted here. -/
structure Sink where
  freelan_log : Int → Int → Int → Int → Nat → Option String → Int → Int
  freelan_log_start : Int → Int → Int → Int → Option String → Int → Nat
  freelan_log_complete : Nat → Int

/-- The function log_attach(entry, key, value) from
src/pyfreelan/api/log.py.  Returns the single native attach call it
performs, or the TypeError message it raises -- in which case no native
call is made. -/
def log_attach (entry : Nat) (key value : PyValue) : Except String NativeCall :=
  let key := if key.isinstance_unicode then key.encodeUtf8 else key
  if ¬ key.isinstance_str then
    .error "key must be a string"
  else
    let k := key.strVal
    let value := if value.isinstance_unicode then value.encodeUtf8 else value
    if value.isinstance_str then
      .ok (.attach_string entry k value.strVal)
    else if value.isinstance_bool then
      .ok (.attach_boolean entry k value.boolVal)
    else if value.isinstance_int then
      .ok (.attach_integer entry k value.intVal)
    else if value.isinstance_float then
      .ok (.attach_float entry k value.floatVal)
    else
      .error "value must be either a string, an integer, a float or a boolean value"

/-- The loop `for key, value in payload.iteritems(): log_attach(...)`
inside log: runs log_attach on each pair in iteration order, recording
the native calls made, and stops at the first raised TypeError, whose
message is returned as `some msg`. -/
def attachLoop (entry : Nat) : List (PyValue × PyValue) → List NativeCall × Option String
  | [] => ([], none)
  | (k, v) :: rest =>
    match log_attach entry k v with
    | .ok c =>
      let r := attachLoop entry rest
      (c :: r.1, r.2)
    | .error e => ([], some e)

/-- Python truthiness of the file argument after the `if file is None`
rewrite: ffi.NULL and the empty string are falsy. -/
def fileTruthy : Option String → Bool
  | none => false
  | some s => s ≠ ""

/-- Python truthiness of the payload argument: None and the empty dict
are falsy. -/
def payloadTruthy : Option (List (PyValue × PyValue)) → Bool
  | none => false
  | some l => l ≠ []

/-- The function log(level, timestamp, domain, code, payload, file, line)
from src/pyfreelan/api/log.py.  The payload dict is modelled as an
association list in iteration order.  Returns the outcome of the call
(a propagated exception would be `Except.error`, but the return inside
the finally block discards any pending exception, so the function always
returns `Except.ok`) together with the trace of native calls made. -/
def log (sink : Sink) (level timestamp domain code : Int)
    (payload : Option (List (PyValue × PyValue)) := none)
    (file : Option String := none) (line : Int := 0) :
    Except String Bool × List NativeCall :=
  let line := if file = none then 0 else line
  if ¬ payloadTruthy payload then
    let r := sink.freelan_log level timestamp domain code 0 file line
    (.ok (r != 0), [.log_single level timestamp domain code 0 file line])
  else
    let startFile := if ¬ fileTruthy file then none else file
    let startLine := if fileTruthy file then line else 0
    let entry := sink.freelan_log_start level timestamp domain code startFile startLine
    let loop := attachLoop entry (payload.getD [])
    -- finally: return native.freelan_log_complete(entry) != 0
    -- (a return in a finally block discards the pending exception loop.2)
    let r := sink.freelan_log_complete entry
    (.ok (r != 0),
      .log_start level timestamp domain code startFile startLine
        :: loop.1 ++ [.log_complete entry])

/-- The entry handle obtained from freelan_log_start in the payload
branch of log, with the same file/line marshalling the source performs. -/
def logEntry (sink : Sink) (level timestamp domain code : Int)
    (file : Option String) (line : Int) : Nat :=
  sink.freelan_log_start level timestamp domain code
    (if ¬ fileTruthy file then none else file)
    (if fileTruthy file then (if file = none then 0 else line) else 0)

/-- The line argument a native call carries, when it carries one. -/
def callLine : NativeCall → Option Int
  | .log_single _ _ _ _ _ _ line => some line
  | .log_start _ _ _ _ _ line => some line
  | _ => none

/-- A concrete sink used to instantiate theorems: accepts everything and
hands out entry handle 7. -/
def testSink : Sink where
  freelan_log := fun _ _ _ _ _ _ _ => 1
  freelan_log_start := fun _ _ _ _ _ _ => 7
  freelan_log_complete := fun _ => 1

/-! ## src/freelan/ntenvironment.py: EnvironmentHelper -/

/-- The flag categories of the build environment that the methods
EnvironmentHelper.__init__ and update_environment_from_library touch,
each a mutable list of strings in the source. -/
structure BuildEnv where
  CXXFLAGS : List String
  LINKFLAGS : List String
  CPPPATH : List String
  LIBPATH : List String
  LIBS : List String
deriving DecidableEq, Repr

/-- The empty build environment. -/
def BuildEnv.empty : BuildEnv := ⟨[], [], [], [], []⟩

/-- The seven warning/strictness flags appended under the mingw toolset,
in source order. -/
def warningFlags : List String :=
  ["-Wall", "-Wextra", "-Werror", "-pedantic", "-Wshadow",
   "-Wno-long-long", "-Wno-uninitialized"]

/-- Python str.startswith: prefix match on the text. -/
def pyStartsWith (s pre : String) : Bool :=
  pre.data.isPrefixOf s.data

/-- The flag-appending part of EnvironmentHelper.__init__: toolset is
self.toolset, requestedArch is self.get_architecture() and hostArch is
self.get_architecture(platform.machine()). -/
def environmentHelperInit (toolset requestedArch hostArch : String)
    (env : BuildEnv) : BuildEnv :=
  if toolset = "mingw" then
    let env := { env with CXXFLAGS := env.CXXFLAGS ++ warningFlags }
    if requestedArch ≠ hostArch then
      if requestedArch = "32" then
        { env with CXXFLAGS := env.CXXFLAGS ++ ["-m32"],
                   LINKFLAGS := env.LINKFLAGS ++ ["-m32"] }
      else if requestedArch = "64" then
        { env with CXXFLAGS := env.CXXFLAGS ++ ["-m64"],
                   LINKFLAGS := env.LINKFLAGS ++ ["-m64"] }
      else env
    else env
  else env

/-- os.path.join on NT, for the two-component uses in the source. -/
def ntPathJoin (a b : String) : String := a ++ "\\" ++ b

/-- The method EnvironmentHelper.update_environment_from_library(env,
library).  The parameters toolset, openssl_path, boost_path and
boost_version are the corresponding self attributes / self.arguments
entries. -/
def update_environment_from_library (toolset openssl_path boost_path boost_version : String)
    (env : BuildEnv) (library : String) : BuildEnv :=
  let env :=
    if pyStartsWith library "openssl_" then
      { env with CPPPATH := env.CPPPATH ++ [ntPathJoin openssl_path "include"],
                 LIBPATH := env.LIBPATH ++ [ntPathJoin openssl_path "lib"] }
    else env
  let env :=
    if library = "openssl_ssl" then
      { env with LIBS := env.LIBS ++ ["ssl"] }
    else env
  let env :=
    if library = "openssl_crypto" then
      { env with LIBS := env.LIBS ++ ["crypto", "gdi32"] }
    else env
  let env :=
    if pyStartsWith library "boost" then
      if toolset = "mingw" then
        { env with CXXFLAGS := env.CXXFLAGS ++
            ["-isystem" ++ ntPathJoin boost_path
              (ntPathJoin "include" ("boost-" ++ boost_version))] }
      else env
    else env
  env

/-- The architecture-forcing flags the mingw branch of __init__ appends
for a given requested/host architecture pair. -/
def archFlags (requestedArch hostArch : String) : List String :=
  if requestedArch ≠ hostArch then
    if requestedArch = "32" then ["-m32"]
    else if requestedArch = "64" then ["-m64"]
    else []
  else []

/-- Number of architecture-forcing flags in a flag list. -/
def countArchFlags (l : List String) : Nat :=
  l.count "-m32" + l.count "-m64"

/-! ## Helper lemmas -/

theorem environmentHelperInit_spec (t r h : String) (env : BuildEnv) :
    environmentHelperInit t r h env =
      if t = "mingw" then
        { env with CXXFLAGS := env.CXXFLAGS ++ (warningFlags ++ archFlags r h),
                   LINKFLAGS := env.LINKFLAGS ++ archFlags r h }
      else env := by
  unfold environmentHelperInit archFlags
  split_ifs <;> simp_all [List.append_assoc]

theorem countArchFlags_append (l₁ l₂ : List String) :
    countArchFlags (l₁ ++ l₂) = countArchFlags l₁ + countArchFlags l₂ := by
  simp [countArchFlags, List.count_append]
  omega

theorem log_attach_ok_callLine (e : Nat) (k v : PyValue) (c : NativeCall)
    (h : log_attach e k v = .ok c) : callLine c = none := by
  cases k <;> cases v <;>
    simp_all [log_attach, PyValue.isinstance_str, PyValue.isinstance_unicode,
      PyValue.isinstance_bool, PyValue.isinstance_int, PyValue.isinstance_float,
      PyValue.encodeUtf8, PyValue.strVal, PyValue.boolVal, PyValue.intVal,
      PyValue.floatVal, callLine] <;>
    simp_all [← h, callLine]

theorem attachLoop_callLine (e : Nat) (l : List (PyValue × PyValue)) :
    ∀ c ∈ (attachLoop e l).1, callLine c = none := by
  induction l with
  | nil => simp [attachLoop]
  | cons kv rest ih =>
    obtain ⟨k, v⟩ := kv
    cases hkv : log_attach e k v with
    | ok c =>
      simp only [attachLoop, hkv, List.mem_cons]
      rintro x (rfl | hx)
      · exact log_attach_ok_callLine e k v x hkv
      · exact ih x hx
    | error msg => simp [attachLoop, hkv]

theorem attachLoop_append_ok (e : Nat) (pre rest : List (PyValue × PyValue))
    (hpre : (attachLoop e pre).2 = none) :
    attachLoop e (pre ++ rest) =
      ((attachLoop e pre).1 ++ (attachLoop e rest).1, (attachLoop e rest).2) := by
  induction pre with
  | nil => simp [attachLoop]
  | cons kv pre ih =>
    obtain ⟨k, v⟩ := kv
    cases hkv : log_attach e k v with
    | ok c =>
      simp only [List.cons_append, attachLoop, hkv] at hpre ⊢
      simp [ih hpre]
    | error msg => simp [attachLoop, hkv] at hpre

theorem attachLoop_forall2 (e : Nat) (l : List (PyValue × PyValue))
    (h : (attachLoop e l).2 = none) :
    List.Forall₂ (fun kv c => log_attach e kv.1 kv.2 = .ok c) l (attachLoop e l).1 := by
  induction l with
  | nil => simp [attachLoop]
  | cons kv rest ih =>
    obtain ⟨k, v⟩ := kv
    cases hkv : log_attach e k v with
    | ok c =>
      simp only [attachLoop, hkv] at h ⊢
      exact List.Forall₂.cons hkv (ih h)
    | error msg => simp [attachLoop, hkv] at h

/-! ## Claims about EnvironmentHelper -/

/-- C3 (amended): architecture-forcing flags are appended only under the
mingw toolset.  For every toolset, requested and host architecture, the
constructor appends some tails to CXXFLAGS and LINKFLAGS that contain
the same number of architecture-forcing flags, and that number is 1
exactly when the toolset is mingw, the architectures differ and the
requested architecture is 32 or 64; in every other case (equal
architectures, a non-mingw toolset, or an unrecognised requested
architecture) it is 0. -/
theorem init_arch_flag_count (t r h : String) (env : BuildEnv) :
    ∃ cxxTail linkTail,
      (environmentHelperInit t r h env).CXXFLAGS = env.CXXFLAGS ++ cxxTail ∧
      (environmentHelperInit t r h env).LINKFLAGS = env.LINKFLAGS ++ linkTail ∧
      countArchFlags cxxTail = countArchFlags linkTail ∧
      countArchFlags linkTail =
        (if t = "mingw" ∧ r ≠ h ∧ (r = "32" ∨ r = "64") then 1 else 0) := by
  by_cases ht : t = "mingw"
  · refine ⟨warningFlags ++ archFlags r h, archFlags r h, ?_, ?_, ?_, ?_⟩
    · rw [environmentHelperInit_spec]; simp [ht]
    · rw [environmentHelperInit_spec]; simp [ht]
    · rw [countArchFlags_append]
      have hw : countArchFlags warningFlags = 0 := by decide
      omega
    · simp only [ht, true_and]
      unfold archFlags
      split_ifs <;> simp_all <;> decide
  · refine ⟨[], [], ?_, ?_, rfl, ?_⟩
    · rw [environmentHelperInit_spec]; simp [ht]
    · rw [environmentHelperInit_spec]; simp [ht]
    · simp [ht, countArchFlags]

/-- C3 counterexample: the claim asserts that for every unequal pair of
requested/host architectures exactly one forcing flag is appended to
both flag lists, with no condition on the toolset.  With toolset msvc
and the unequal pair (32, 64) the constructor appends nothing at all,
because the whole architecture block is nested inside the mingw branch
of the source. -/
theorem init_arch_flag_counterexample :
    "32" ≠ "64" ∧
    environmentHelperInit "msvc" "32" "64" BuildEnv.empty = BuildEnv.empty := by
  constructor
  · decide
  · decide

/-- C4: the seven warning/strictness flags are appended to CXXFLAGS, in
source order, exactly when the toolset is mingw; for every other
toolset the constructor changes nothing (in particular it appends no
warning flag). -/
theorem init_warning_flags (t r h : String) (env : BuildEnv) :
    (t = "mingw" →
      (environmentHelperInit t r h env).CXXFLAGS =
        env.CXXFLAGS ++ warningFlags ++ archFlags r h) ∧
    (t ≠ "mingw" → environmentHelperInit t r h env = env) := by
  constructor
  · intro ht; rw [environmentHelperInit_spec]; simp [ht, List.append_assoc]
  · intro ht; rw [environmentHelperInit_spec]; simp [ht]

/-- C4 witness: instantiation at toolset mingw and at toolset msvc. -/
theorem init_warning_flags_witness :
    (environmentHelperInit "mingw" "64" "64" BuildEnv.empty).CXXFLAGS =
      BuildEnv.empty.CXXFLAGS ++ warningFlags ++ archFlags "64" "64" ∧
    environmentHelperInit "msvc" "64" "32" BuildEnv.empty = BuildEnv.empty :=
  ⟨(init_warning_flags "mingw" "64" "64" BuildEnv.empty).1 rfl,
   (init_warning_flags "msvc" "64" "32" BuildEnv.empty).2 (by decide)⟩

/-- C6: update_environment_from_library contributes paths and libraries
by prefix and exact match.  A library name prefixed openssl_ adds the
shared OpenSSL include path to CPPPATH and the lib path to LIBPATH; the
exact name openssl_ssl additionally adds exactly the one link library
ssl; the exact name openssl_crypto additionally adds exactly the two
link libraries crypto and gdi32; a name prefixed boost adds one
versioned system-include flag to CXXFLAGS when the toolset is mingw and
nothing otherwise. -/
theorem update_env_library_contributions (t op bp bv lib : String) (env : BuildEnv) :
    (pyStartsWith lib "openssl_" = true →
      (update_environment_from_library t op bp bv env lib).CPPPATH =
        env.CPPPATH ++ [ntPathJoin op "include"] ∧
      (update_environment_from_library t op bp bv env lib).LIBPATH =
        env.LIBPATH ++ [ntPathJoin op "lib"]) ∧
    (lib = "openssl_ssl" →
      (update_environment_from_library t op bp bv env lib).LIBS =
        env.LIBS ++ ["ssl"]) ∧
    (lib = "openssl_crypto" →
      (update_environment_from_library t op bp bv env lib).LIBS =
        env.LIBS ++ ["crypto", "gdi32"]) ∧
    (pyStartsWith lib "boost" = true →
      (update_environment_from_library t op bp bv env lib).CXXFLAGS =
        env.CXXFLAGS ++
          (if t = "mingw" then
            ["-isystem" ++ ntPathJoin bp (ntPathJoin "include" ("boost-" ++ bv))]
          else [])) := by
  refine ⟨?_, ?_, ?_, ?_⟩ <;> intro h <;>
    unfold update_environment_from_library <;>
    split_ifs <;> simp_all

/-- C6 witness: instantiation at the name openssl_crypto under the
mingw toolset. -/
theorem update_env_library_contributions_witness :
    (update_environment_from_library "mingw" "C:\\openssl" "C:\\boost" "1_47"
        BuildEnv.empty "openssl_crypto").LIBS =
      BuildEnv.empty.LIBS ++ ["crypto", "gdi32"] ∧
    (update_environment_from_library "mingw" "C:\\openssl" "C:\\boost" "1_47"
        BuildEnv.empty "openssl_crypto").CPPPATH =
      BuildEnv.empty.CPPPATH ++ [ntPathJoin "C:\\openssl" "include"] :=
  ⟨(update_env_library_contributions "mingw" "C:\\openssl" "C:\\boost" "1_47"
      "openssl_crypto" BuildEnv.empty).2.2.1 rfl,
   ((update_env_library_contributions "mingw" "C:\\openssl" "C:\\boost" "1_47"
      "openssl_crypto" BuildEnv.empty).1 (by decide)).1⟩

/-- C7: for every library name that is prefixed neither by openssl_ nor
by boost, update_environment_from_library leaves the environment
completely unchanged and raises no error.  (A name equal to openssl_ssl
or openssl_crypto necessarily carries the openssl_ prefix.) -/
theorem update_env_library_unknown_noop (t op bp bv lib : String) (env : BuildEnv)
    (h1 : pyStartsWith lib "openssl_" = false)
    (h2 : pyStartsWith lib "boost" = false) :
    update_environment_from_library t op bp bv env lib = env := by
  have hssl : lib ≠ "openssl_ssl" := by
    rintro rfl; exact absurd h1 (by decide)
  have hcrypto : lib ≠ "openssl_crypto" := by
    rintro rfl; exact absurd h1 (by decide)
  unfold update_environment_from_library
  simp [h1, h2, hssl, hcrypto]

/-- C7 witness: instantiation at the unknown library name iconv. -/
theorem update_env_library_unknown_noop_witness :
    update_environment_from_library "mingw" "C:\\openssl" "C:\\boost" "1_47"
      BuildEnv.empty "iconv" = BuildEnv.empty :=
  update_env_library_unknown_noop "mingw" "C:\\openssl" "C:\\boost" "1_47"
    "iconv" BuildEnv.empty (by decide) (by decide)

/-! ## Claims about the log bridge -/

/-- C8: with payload absent (None), log makes exactly one single-shot
native call carrying attachment count 0, opens and closes no record,
and returns true exactly when the sink result is non-zero. -/
theorem log_no_payload_single_shot (sink : Sink) (l t d c line : Int)
    (file : Option String) :
    log sink l t d c none file line =
      (Except.ok (sink.freelan_log l t d c 0 file (if file = none then 0 else line) != 0),
       [NativeCall.log_single l t d c 0 file (if file = none then 0 else line)]) := by
  rfl

/-- Every line argument forwarded to the sink by log: the head call of
the trace (single-shot or record start) carries the marshalled line,
and no other call carries a line. -/
theorem log_trace_lines (sink : Sink) (l t d c line : Int)
    (payload : Option (List (PyValue × PyValue))) (file : Option String) :
    ∀ nc ∈ (log sink l t d c payload file line).2,
      callLine nc = none ∨
      callLine nc = some (if payloadTruthy payload = true
        then (if fileTruthy file then (if file = none then 0 else line) else 0)
        else (if file = none then 0 else line)) := by
  intro nc hnc
  by_cases hp : payloadTruthy payload = true
  · simp only [log, hp, not_true_eq_false, if_false, List.mem_cons, List.mem_append,
      List.mem_singleton] at hnc
    rcases hnc with (rfl | hnc) | (rfl | h0)
    · right; simp [callLine, hp]
    · exact Or.inl (attachLoop_callLine _ _ nc hnc)
    · exact Or.inl rfl
    · exact absurd h0 (List.not_mem_nil nc)
  · have hp' : payloadTruthy payload = false := by simpa using hp
    simp only [log, hp', Bool.false_eq_true, not_false_eq_true, if_true,
      List.mem_singleton] at hnc
    subst hnc
    right; simp [callLine, hp]

/-- C9 (amended): with file absent (None), every line forwarded to the
sink is 0, regardless of the line argument; with a supplied non-empty
file the line is forwarded unchanged; a supplied empty file string
forwards the line unchanged in the single-shot path, but in the payload
path it is treated as absent and the forwarded line is forced to 0. -/
theorem log_line_marshalling (sink : Sink) (l t d c line : Int)
    (payload : Option (List (PyValue × PyValue))) (f : String) (hf : f ≠ "") :
    (∀ nc ∈ (log sink l t d c payload none line).2,
      callLine nc = none ∨ callLine nc = some 0) ∧
    (∀ nc ∈ (log sink l t d c payload (some f) line).2,
      callLine nc = none ∨ callLine nc = some line) ∧
    (∀ nc ∈ (log sink l t d c payload (some "") line).2,
      callLine nc = none ∨
        callLine nc = some (if payloadTruthy payload then 0 else line)) := by
  refine ⟨?_, ?_, ?_⟩ <;> intro nc hnc
  · simpa using log_trace_lines sink l t d c line payload none nc hnc
  · simpa [fileTruthy, hf] using log_trace_lines sink l t d c line payload (some f) nc hnc
  · simpa [fileTruthy] using log_trace_lines sink l t d c line payload (some "") nc hnc

/-- C9 counterexample: the claim asserts that whenever file is supplied
the line is forwarded unchanged.  Supplying the (empty) file string with
line 42 and a non-empty payload opens the record with ffi.NULL as the
file and line 0, because the source tests Python truthiness of file, not
only absence, when building the record. -/
theorem log_line_marshalling_counterexample :
    (log testSink 1 2 3 4 (some [(PyValue.pystr "k", PyValue.pystr "v")])
        (some "") 42).2 =
      [NativeCall.log_start 1 2 3 4 none 0,
       NativeCall.attach_string 7 "k" "v",
       NativeCall.log_complete 7] ∧
    (some "" : Option String) ≠ none := by
  refine ⟨rfl, by decide⟩

/-- C9 witness: instantiation at a non-empty file name and line 42. -/
theorem log_line_marshalling_witness :
    callLine (NativeCall.log_single 1 2 3 4 0 (some "main.c") 42) = none ∨
    callLine (NativeCall.log_single 1 2 3 4 0 (some "main.c") 42) = some 42 :=
  (log_line_marshalling testSink 1 2 3 4 42 none "main.c" (by decide)).2.1
    (NativeCall.log_single 1 2 3 4 0 (some "main.c") 42) (by decide)

theorem log_payload_eq (sink : Sink) (l t d c line : Int) (file : Option String)
    (payload : List (PyValue × PyValue)) (hne : payload ≠ []) :
    log sink l t d c (some payload) file line =
      (Except.ok (sink.freelan_log_complete (logEntry sink l t d c file line) != 0),
       NativeCall.log_start l t d c
           (if ¬ fileTruthy file then none else file)
           (if fileTruthy file then (if file = none then 0 else line) else 0)
         :: (attachLoop (logEntry sink l t d c file line) payload).1
         ++ [NativeCall.log_complete (logEntry sink l t d c file line)]) := by
  have hp : payloadTruthy (some payload) = true := by simp [payloadTruthy, hne]
  unfold log logEntry
  simp [hp]

/-- C2: for every non-empty payload, log opens a record, attaches the
pairs in iteration order (the attach calls correspond pairwise, in
order, to the payload entries when every entry is well-typed, and stop
at the first type violation otherwise), then closes the record, and the
result of the close call -- non-zero mapped to true -- is what the call
returns, even when an attachment step failed partway through. -/
theorem log_payload_record_structure (sink : Sink) (l t d c line : Int)
    (file : Option String) (payload : List (PyValue × PyValue)) (hne : payload ≠ []) :
    log sink l t d c (some payload) file line =
      (Except.ok (sink.freelan_log_complete (logEntry sink l t d c file line) != 0),
       NativeCall.log_start l t d c
           (if ¬ fileTruthy file then none else file)
           (if fileTruthy file then (if file = none then 0 else line) else 0)
         :: (attachLoop (logEntry sink l t d c file line) payload).1
         ++ [NativeCall.log_complete (logEntry sink l t d c file line)]) ∧
    ((attachLoop (logEntry sink l t d c file line) payload).2 = none →
      List.Forall₂
        (fun kv nc => log_attach (logEntry sink l t d c file line) kv.1 kv.2 = Except.ok nc)
        payload (attachLoop (logEntry sink l t d c file line) payload).1) :=
  ⟨log_payload_eq sink l t d c line file payload hne,
   attachLoop_forall2 (logEntry sink l t d c file line) payload⟩

/-- C2 witness: instantiation at a one-entry boolean payload under the
test sink; the close result of the test sink is 1, so the call returns
true. -/
theorem log_payload_record_structure_witness :
    log testSink 1 2 3 4 (some [(PyValue.pystr "k", PyValue.pybool true)]) none 0 =
      (Except.ok true,
       [NativeCall.log_start 1 2 3 4 none 0,
        NativeCall.attach_boolean 7 "k" true,
        NativeCall.log_complete 7]) :=
  (log_payload_record_structure testSink 1 2 3 4 0 none
    [(PyValue.pystr "k", PyValue.pybool true)] (by decide)).1

/-- C1 (amended): when the payload contains a key or value of a
rejected kind (the first such pair being preceded by well-typed pairs),
the TypeError is raised inside the attachment loop before any attach
call is made for that pair, and the remaining pairs are not attached;
but the violation is not propagated to the caller of log: the return
statement inside the finally block discards it, the record is still
closed, and log returns the result of the close call. -/
theorem log_type_violation_swallowed (sink : Sink) (l t d c line : Int)
    (file : Option String) (pre rest : List (PyValue × PyValue))
    (k v : PyValue) (msg : String)
    (hpre : (attachLoop (logEntry sink l t d c file line) pre).2 = none)
    (hbad : ∀ e, log_attach e k v = Except.error msg) :
    (log sink l t d c (some (pre ++ (k, v) :: rest)) file line).1 =
      Except.ok (sink.freelan_log_complete (logEntry sink l t d c file line) != 0) ∧
    (log sink l t d c (some (pre ++ (k, v) :: rest)) file line).2 =
      NativeCall.log_start l t d c
          (if ¬ fileTruthy file then none else file)
          (if fileTruthy file then (if file = none then 0 else line) else 0)
        :: (attachLoop (logEntry sink l t d c file line) pre).1
        ++ [NativeCall.log_complete (logEntry sink l t d c file line)] := by
  have hne : pre ++ (k, v) :: rest ≠ [] := by simp
  have hloop : (attachLoop (logEntry sink l t d c file line) (pre ++ (k, v) :: rest)).1 =
      (attachLoop (logEntry sink l t d c file line) pre).1 := by
    rw [attachLoop_append_ok _ _ _ hpre]
    simp [attachLoop, hbad]
  rw [log_payload_eq sink l t d c line file _ hne]
  simp [hloop]

/-- C1 counterexample: the claim asserts the type violation is raised
synchronously to the caller of log and that the call aborts
immediately.  Logging the payload entry (k, [1, 2]) makes log_attach
raise the TypeError, yet log returns normally (Except.ok, not an
exception) and the trace still ends with the record-closing call:
the return inside the finally block has discarded the exception. -/
theorem log_type_violation_counterexample :
    (log testSink 1 2 3 4 (some [(PyValue.pystr "k", PyValue.pylist [1, 2])])
        none 0).1.isOk = true ∧
    NativeCall.log_complete 7 ∈
      (log testSink 1 2 3 4 (some [(PyValue.pystr "k", PyValue.pylist [1, 2])])
        none 0).2 ∧
    log_attach 7 (PyValue.pystr "k") (PyValue.pylist [1, 2]) =
      Except.error "value must be either a string, an integer, a float or a boolean value" := by
  refine ⟨rfl, ?_, rfl⟩
  simp [log, payloadTruthy, attachLoop, log_attach, logEntry, testSink]

/-- C1 witness: instantiation at a payload whose single entry has a
list value, under the test sink. -/
theorem log_type_violation_swallowed_witness :
    (log testSink 1 2 3 4 (some [(PyValue.pystr "k", PyValue.pylist [1, 2])])
        none 0).1 = Except.ok true ∧
    (log testSink 1 2 3 4 (some [(PyValue.pystr "k", PyValue.pylist [1, 2])])
        none 0).2 =
      [NativeCall.log_start 1 2 3 4 none 0, NativeCall.log_complete 7] :=
  log_type_violation_swallowed testSink 1 2 3 4 0 none [] []
    (PyValue.pystr "k") (PyValue.pylist [1, 2])
    "value must be either a string, an integer, a float or a boolean value"
    rfl (fun _ => rfl)

/-- C5: log_attach raises the TypeError for a key that is not a string
after UTF-8 encoding, with no native call made (the error result
carries no call); raises the TypeError for a value that is none of
string, boolean, integer or float, again with no native call made; and
for values of the four accepted kinds dispatches to exactly the
corresponding typed native attach operation. -/
theorem log_attach_dispatch (entry : Nat) (key value : PyValue) :
    (key.encodeUtf8.isinstance_str = false →
      log_attach entry key value = Except.error "key must be a string") ∧
    (key.encodeUtf8.isinstance_str = true →
      (value.encodeUtf8.isinstance_str = false → value.isinstance_bool = false →
       value.isinstance_int = false → value.isinstance_float = false →
        log_attach entry key value =
          Except.error "value must be either a string, an integer, a float or a boolean value") ∧
      (∀ s, value.encodeUtf8 = PyValue.pystr s →
        log_attach entry key value =
          Except.ok (NativeCall.attach_string entry key.encodeUtf8.strVal s)) ∧
      (∀ b, value = PyValue.pybool b →
        log_attach entry key value =
          Except.ok (NativeCall.attach_boolean entry key.encodeUtf8.strVal b)) ∧
      (∀ n, value = PyValue.pyint n →
        log_attach entry key value =
          Except.ok (NativeCall.attach_integer entry key.encodeUtf8.strVal n)) ∧
      (∀ x, value = PyValue.pyfloat x →
        log_attach entry key value =
          Except.ok (NativeCall.attach_float entry key.encodeUtf8.strVal x))) := by
  cases key <;> cases value <;>
    simp_all [log_attach, PyValue.encodeUtf8, PyValue.isinstance_str,
      PyValue.isinstance_unicode, PyValue.isinstance_bool, PyValue.isinstance_int,
      PyValue.isinstance_float, PyValue.strVal, PyValue.boolVal, PyValue.intVal,
      PyValue.floatVal]

/-- C5 witness: a list value raises the TypeError with no native call
made. -/
theorem log_attach_dispatch_witness :
    log_attach 0 (PyValue.pystr "k") (PyValue.pylist [1, 2]) =
      Except.error "value must be either a string, an integer, a float or a boolean value" :=
  ((log_attach_dispatch 0 (PyValue.pystr "k") (PyValue.pylist [1, 2])).2 rfl).1
    rfl rfl rfl rfl

/-- C10: a boolean payload value is dispatched to the boolean native
attach operation and never to the integer one, even though in the host
language a bool is also an int (the isinstance test for bool precedes
the one for int in the source). -/
theorem log_attach_bool_not_int (entry : Nat) (key : PyValue) (b : Bool)
    (hk : key.encodeUtf8.isinstance_str = true) :
    log_attach entry key (PyValue.pybool b) =
      Except.ok (NativeCall.attach_boolean entry key.encodeUtf8.strVal b) ∧
    (PyValue.pybool b).isinstance_int = true ∧
    ∀ e k n, log_attach entry key (PyValue.pybool b) ≠
      Except.ok (NativeCall.attach_integer e k n) := by
  refine ⟨?_, rfl, ?_⟩
  · cases key <;>
      simp_all [log_attach, PyValue.encodeUtf8, PyValue.isinstance_str,
        PyValue.isinstance_unicode, PyValue.isinstance_bool, PyValue.strVal,
        PyValue.boolVal]
  · intro e k n hcontra
    cases key <;>
      simp_all [log_attach, PyValue.encodeUtf8, PyValue.isinstance_str,
        PyValue.isinstance_unicode, PyValue.isinstance_bool, PyValue.strVal,
        PyValue.boolVal]

/-- C10 witness: instantiation at key k and value True. -/
theorem log_attach_bool_not_int_witness :
    log_attach 0 (PyValue.pystr "k") (PyValue.pybool true) =
      Except.ok (NativeCall.attach_boolean 0 "k" true) :=
  (log_attach_bool_not_int 0 (PyValue.pystr "k") true rfl).1
